import Mathlib

/-!
Shallow embedding of the Sentarr log-monitoring engine (`src/app/monitor.py`):
pattern classification (`PlexLogMonitor.parse_log_line` with `ERROR_PATTERNS` /
`WARNING_PATTERNS`), the sliding-window burst counter
(`PlexLogMonitor.check_error_threshold`), the cooldown gate
(`AlertManager.should_send_alert`), multi-channel dispatch
(`AlertManager.send_alert`), and the per-line processing pipeline
(`PlexLogMonitor.process_log_entry`, the body of `tail_file`).

Modelling conventions:
* wall-clock instants (`datetime.now()`) are natural numbers counting seconds;
  the several `datetime.now()` calls made while one line is handled are the
  same instant `now` (the code is single threaded and the calls are
  microseconds apart);
* Python's `hash(line)` is modelled as injective, so the dedup set
  `processed_lines` stores the lines themselves;
* dictionaries (`error_counts`, `last_alerts`) are association lists looked up
  with `List.lookup`; `defaultdict(list)` reads through `Option.getD []`;
* each regex in the tables has the shape `A.*B|A.*C|...` with only literal
  alternatives, compiled with `re.IGNORECASE` and used through `.search`, so a
  pattern is modelled as a list of `(left, right)` literal pairs matched
  case-insensitively with a newline-free gap (regex `.` does not match `\n`).
-/

set_option autoImplicit false

namespace Sentarr

/-! ### Association-list helpers (Python dict assignment) -/

/-- `d[k] = v` on an association list: replace the binding of `k`, or append it. -/
def setAssoc {α : Type} (l : List (String × α)) (k : String) (v : α) :
    List (String × α) :=
  match l with
  | [] => [(k, v)]
  | (k', v') :: rest =>
      if k' = k then (k, v) :: rest else (k', v') :: setAssoc rest k v

/-! ### Regex model for the fixed pattern tables -/

/-- Scan forward from the current position for literal `b`, allowing any gap of
characters except a newline before it (the `.*B` part of `A.*B` under
`re.search`: `.` does not match `\n`). -/
def gapThen (b : List Char) : List Char → Bool
  | [] => b.isPrefixOf ([] : List Char)
  | c :: rest => b.isPrefixOf (c :: rest) || (c != '\n' && gapThen b rest)

/-- `re.search` of `A.*B` over a character list: some occurrence of literal `a`
is followed, with a newline-free gap, by literal `b`. -/
def matchDotStar (a b : List Char) : List Char → Bool
  | [] => a.isPrefixOf ([] : List Char) && gapThen b (List.drop a.length [])
  | c :: rest =>
      (a.isPrefixOf (c :: rest) && gapThen b (List.drop a.length (c :: rest)))
        || matchDotStar a b rest

/-- One compiled pattern: alternation of `left.*right` literal pairs, matched
case-insensitively (`re.IGNORECASE`) via lowercasing the line. -/
def reSearch (alts : List (String × String)) (line : String) : Bool :=
  alts.any fun ab =>
    matchDotStar (ab.1.data.map Char.toLower) (ab.2.data.map Char.toLower)
      (line.data.map Char.toLower)

/-- `PlexLogMonitor.ERROR_PATTERNS`, in declaration order. -/
def ERROR_PATTERNS : List (String × List (String × String)) :=
  [("stream_error", [("ERROR", "stream"), ("ERROR", "playback"), ("ERROR", "transcode")]),
   ("database_error", [("ERROR", "database"), ("ERROR", "sqlite"), ("ERROR", "corruption")]),
   ("network_error", [("ERROR", "network"), ("ERROR", "connection"), ("ERROR", "timeout")]),
   ("auth_error", [("ERROR", "authentication"), ("ERROR", "unauthorized"), ("ERROR", "token")]),
   ("scanner_error", [("ERROR", "scanner"), ("ERROR", "metadata"), ("ERROR", "library")]),
   ("disk_error", [("ERROR", "disk"), ("ERROR", "i/o error"), ("ERROR", "read error")])]

/-- `PlexLogMonitor.WARNING_PATTERNS`, in declaration order. -/
def WARNING_PATTERNS : List (String × List (String × String)) :=
  [("transcoding_warning", [("WARN", "transcode"), ("WARN", "codec")]),
   ("performance_warning", [("WARN", "slow"), ("WARN", "performance"), ("WARN", "timeout")]),
   ("permission_warning", [("WARN", "permission"), ("WARN", "access denied")])]

/-- The `for pattern_name, pattern in TABLE.items(): if pattern.search(line):`
loop: first rule that matches wins, in declaration order. -/
def firstMatch (tbl : List (String × List (String × String))) (line : String) :
    Option String :=
  match tbl with
  | [] => none
  | (name, alts) :: rest =>
      if reSearch alts line then some name else firstMatch rest line

/-- The classification part of `parse_log_line`: the error-pattern loop
(guarded by `monitor_errors`) runs first and returns on the first hit, then
the warning-pattern loop (guarded by `monitor_warnings`). -/
def classifyRules (errTbl warnTbl : List (String × List (String × String)))
    (monErr monWarn : Bool) (line : String) : Option (String × String) :=
  match (if monErr then firstMatch errTbl line else none) with
  | some n => some ("error", n)
  | none =>
      match (if monWarn then firstMatch warnTbl line else none) with
      | some n => some ("warning", n)
      | none => none

/-! ### Configuration and engine state -/

/-- The environment-derived configuration read once at startup
(`AlertManager.__init__` and `PlexLogMonitor.__init__`). `time_window` and
`alert_cooldown` are in minutes, as in the code. -/
structure Config where
  monitor_errors : Bool
  monitor_warnings : Bool
  error_threshold : Nat
  time_window : Nat
  alert_cooldown : Nat
  email_enabled : Bool
  discord_enabled : Bool
  slack_enabled : Bool
  webhook_enabled : Bool

/-- Classification using the monitor's fixed pattern tables. -/
def classify (cfg : Config) (line : String) : Option (String × String) :=
  classifyRules ERROR_PATTERNS WARNING_PATTERNS
    cfg.monitor_errors cfg.monitor_warnings line

/-- The mutable monitor state: `PlexLogMonitor.error_counts`,
`AlertManager.last_alerts`, `PlexLogMonitor.processed_lines`. -/
structure MonState where
  error_counts : List (String × List Nat)
  last_alerts : List (String × Nat)
  processed_lines : List String

/-- The all-empty initial state built by `__init__`. -/
def initState : MonState := ⟨[], [], []⟩

/-! ### Python string helpers used when building entries and titles -/

/-- Python `str.strip()`: drop leading and trailing whitespace. -/
def pyStrip (s : String) : String :=
  String.mk (((s.data.dropWhile Char.isWhitespace).reverse.dropWhile
    Char.isWhitespace).reverse)

/-- Python slicing `s[:n]`. -/
def pyTake (s : String) (n : Nat) : String := String.mk (s.data.take n)

/-- Character stream of Python `str.title()`: a letter starts a word (is
uppercased) when the previous character is not a letter, otherwise it is
lowercased. -/
def pyTitleChars : Bool → List Char → List Char
  | _, [] => []
  | prevAlpha, c :: rest =>
      if c.isAlpha then
        (if prevAlpha then c.toLower else c.toUpper) :: pyTitleChars true rest
      else c :: pyTitleChars false rest

/-- `pattern.replace('_', ' ').title()` as used in the alert titles. -/
def patternTitle (p : String) : String :=
  String.mk (pyTitleChars false
    (p.data.map fun c => if c = '_' then ' ' else c))

/-- Title of a burst alert: `f"Multiple {pattern...title()} Detected"`. -/
def errorAlertTitle (p : String) : String :=
  "Multiple " ++ patternTitle p ++ " Detected"

/-- Title of a warning alert: `f"Plex Warning: {pattern...title()}"`. -/
def warningAlertTitle (p : String) : String :=
  "Plex Warning: " ++ patternTitle p

/-! ### parse_log_line -/

/-- The result dict of `parse_log_line` when a pattern matched
(`type` is `"error"` or `"warning"`). -/
structure Entry where
  raw : String
  timestamp : Nat
  type : String
  pattern : String
  message : String
deriving DecidableEq

/-- The dedup bookkeeping of `parse_log_line`: add the line's hash, then clear
the whole set in one step if its size exceeds 10000. -/
def dedupUpdate (pl : List String) (line : String) : List String :=
  let pl0 := pl ++ [line]
  if 10000 < pl0.length then [] else pl0

/-- `PlexLogMonitor.parse_log_line`: return `none` at once for an already-seen
hash; otherwise record the hash (clearing wholesale past 10000 entries), then
run the error-pattern loop and the warning-pattern loop, first match wins. -/
def parse_log_line (cfg : Config) (st : MonState) (line : String) (now : Nat) :
    MonState × Option Entry :=
  if line ∈ st.processed_lines then (st, none)
  else
    let st' := { st with processed_lines := dedupUpdate st.processed_lines line }
    match classify cfg line with
    | some sp => (st', some ⟨line, now, sp.1, sp.2, pyStrip line⟩)
    | none => (st', none)

/-! ### check_error_threshold -/

/-- `PlexLogMonitor.check_error_threshold`: drop the timestamps at or past the
cutoff (`ts.timestamp() > cutoff` keeps `ts` exactly when `now < ts + window`
in seconds), append `now`, store the list back, and report whether its length
reached the threshold. -/
def check_error_threshold (cfg : Config) (counts : List (String × List Nat))
    (pattern : String) (now : Nat) : List (String × List Nat) × Bool :=
  let old := (counts.lookup pattern).getD []
  let kept := old.filter fun ts => decide (now < ts + cfg.time_window * 60)
  let upd := kept ++ [now]
  (setAssoc counts pattern upd, decide (cfg.error_threshold ≤ upd.length))

/-! ### AlertManager: cooldown gate and dispatch -/

/-- `AlertManager.should_send_alert`: a key never sent is always allowed;
otherwise the code compares `(now - last).total_seconds() / 60 >=
alert_cooldown`, which over the reals is exactly
`alert_cooldown * 60 <= now - last` in seconds (the form used here). -/
def should_send_alert (cfg : Config) (last_alerts : List (String × Nat))
    (key : String) (now : Nat) : Bool :=
  match last_alerts.lookup key with
  | none => true
  | some last => decide ((cfg.alert_cooldown : Int) * 60 ≤ (now : Int) - (last : Int))

/-- The four notification channels of `AlertManager`, in the order
`send_alert` tries them. -/
inductive Channel
  | email
  | discord
  | slack
  | webhook
deriving DecidableEq

/-- The channels whose enabled flag is set, in dispatch order. -/
def enabledChannels (cfg : Config) : List Channel :=
  (if cfg.email_enabled then [Channel.email] else [])
    ++ (if cfg.discord_enabled then [Channel.discord] else [])
    ++ (if cfg.slack_enabled then [Channel.slack] else [])
    ++ (if cfg.webhook_enabled then [Channel.webhook] else [])

/-- The body of each `_send_email` / `_send_discord` / `_send_slack` /
`_send_webhook`: the whole delivery is wrapped in `try/except`, so a transport
exception is caught and logged and only the success flag differs. -/
def attemptDeliver (o : Except String Unit) : Bool :=
  match o with
  | .ok _ => true
  | .error _ => false

/-- One attempted channel delivery with its caught outcome. -/
def sendChannel (outcome : Channel → Except String Unit) (ch : Channel) :
    Channel × Bool :=
  (ch, attemptDeliver (outcome ch))

/-- The alert payload handed to the channel senders. -/
structure Alert where
  title : String
  message : String
  severity : String
  details : List (String × String)
deriving DecidableEq

/-- Result of `AlertManager.send_alert`: the updated `last_alerts` map, the
alert if the cooldown gate passed (`logger.info("Sending alert: ...")`), and
the per-channel attempts actually made. -/
structure SendResult where
  last_alerts : List (String × Nat)
  sent : Option Alert
  attempts : List (Channel × Bool)

/-- `AlertManager.send_alert`: build `alert_key = f"{severity}:{title}"`;
return early when the cooldown gate refuses; otherwise record
`last_alerts[alert_key] = now` and then try each enabled channel in turn
(every `_send_*` catches its own exceptions, so every enabled channel is
attempted whatever the outcomes). -/
def send_alert (cfg : Config) (la : List (String × Nat)) (now : Nat)
    (title message severity : String) (details : List (String × String))
    (outcome : Channel → Except String Unit) : SendResult :=
  let key := severity ++ ":" ++ title
  if should_send_alert cfg la key now then
    let la' := setAssoc la key now
    let atts :=
      (if cfg.email_enabled then [sendChannel outcome Channel.email] else [])
        ++ (if cfg.discord_enabled then [sendChannel outcome Channel.discord] else [])
        ++ (if cfg.slack_enabled then [sendChannel outcome Channel.slack] else [])
        ++ (if cfg.webhook_enabled then [sendChannel outcome Channel.webhook] else [])
    ⟨la', some ⟨title, message, severity, details⟩, atts⟩
  else ⟨la, none, []⟩

/-! ### process_log_entry and the tail loop body -/

/-- `PlexLogMonitor.process_log_entry`: for `type == 'error'` record the
occurrence and alert only when the windowed count reached the threshold; for
`type == 'warning'` alert at once (throttled only by the cooldown gate inside
`send_alert`). Returns the updated state and the alert that passed the gate,
if any. -/
def process_log_entry (cfg : Config) (st : MonState) (e : Entry) (now : Nat)
    (outcome : Channel → Except String Unit) : MonState × Option Alert :=
  if e.type = "error" then
    let res := check_error_threshold cfg st.error_counts e.pattern now
    let st1 := { st with error_counts := res.1 }
    if res.2 then
      let count := ((res.1.lookup e.pattern).getD []).length
      let r := send_alert cfg st1.last_alerts now
        (errorAlertTitle e.pattern)
        ("Detected " ++ toString count ++ " errors in the last "
          ++ toString cfg.time_window ++ " minutes")
        "error"
        [("Pattern", e.pattern), ("Count", toString count),
         ("Time Window", toString cfg.time_window ++ " minutes"),
         ("Latest Error", pyTake e.message 200)]
        outcome
      ({ st1 with last_alerts := r.last_alerts }, r.sent)
    else (st1, none)
  else if e.type = "warning" then
    let r := send_alert cfg st.last_alerts now
      (warningAlertTitle e.pattern)
      (pyTake e.message 300)
      "warning"
      [("Pattern", e.pattern), ("Timestamp", toString e.timestamp)]
      outcome
    ({ st with last_alerts := r.last_alerts }, r.sent)
  else (st, none)

/-- One iteration of the `tail_file` read loop on a non-empty line:
`entry = parse_log_line(line); if entry: process_log_entry(entry)`. -/
def tailStep (cfg : Config) (st : MonState) (line : String) (now : Nat)
    (outcome : Channel → Except String Unit) : MonState × Option Alert :=
  match parse_log_line cfg st line now with
  | (st1, some e) => process_log_entry cfg st1 e now outcome
  | (st1, none) => (st1, none)

/-- Run the tail loop over a list of timestamped lines, collecting the alerts
that passed the cooldown gate. -/
def runLines (cfg : Config) (outcome : Channel → Except String Unit) :
    MonState → List (String × Nat) → MonState × List Alert
  | st, [] => (st, [])
  | st, (line, t) :: rest =>
      let p := tailStep cfg st line t outcome
      let q := runLines cfg outcome p.1 rest
      (q.1, p.2.toList ++ q.2)

/-- Repeated calls of `check_error_threshold` for one pattern at the given
instants, collecting the threshold verdicts. -/
def runThreshold (cfg : Config) (pattern : String) :
    List (String × List Nat) → List Nat → List Bool
  | _, [] => []
  | counts, t :: rest =>
      let r := check_error_threshold cfg counts pattern t
      r.2 :: runThreshold cfg pattern r.1 rest

/-! ### Spec-side comparison definitions -/

/-- Modelled from the spec's words, for comparison with
`check_error_threshold`: "evict all timestamps with `at − ts > window`", i.e.
retain exactly the stored `ts` with `at − ts ≤ window` (window in minutes,
times in seconds), then append `at`. -/
def specStrictEvictThenAppend (windowMinutes now : Nat) (stored : List Nat) :
    List Nat :=
  stored.filter (fun ts : Nat => decide ((now : Int) - (ts : Int) ≤ (windowMinutes * 60 : Nat)))
    ++ [now]

/-- The same two-block loop as `classifyRules` with the blocks swapped
(warning rules consulted before error rules): the hypothetical declaration
order used to show the order is a real contract. -/
def classifyRulesSwapped (errTbl warnTbl : List (String × List (String × String)))
    (monErr monWarn : Bool) (line : String) : Option (String × String) :=
  match (if monWarn then firstMatch warnTbl line else none) with
  | some n => some ("warning", n)
  | none =>
      match (if monErr then firstMatch errTbl line else none) with
      | some n => some ("error", n)
      | none => none

/-- The cooldown keys of every alert `process_log_entry` can generate over the
fixed pattern tables, as `send_alert` builds them (`f"{severity}:{title}"`). -/
def alertKeys : List String :=
  ERROR_PATTERNS.map (fun pr => "error" ++ ":" ++ errorAlertTitle pr.1)
    ++ WARNING_PATTERNS.map (fun pr => "warning" ++ ":" ++ warningAlertTitle pr.1)

/-! ### Concrete data for scenarios and witnesses -/

/-- Default configuration: thresholds `5`/`5`/`15` as in the code's env
defaults, monitoring both severities, discord as the one enabled channel. -/
def cfgDemo : Config := ⟨true, true, 5, 5, 15, false, true, false, false⟩

/-- Default thresholds with every notification channel disabled. -/
def cfgNoChannels : Config := ⟨true, true, 5, 5, 15, false, false, false, false⟩

/-- Default thresholds with discord and slack enabled. -/
def cfgTwoChannels : Config := ⟨true, true, 5, 5, 15, false, true, true, false⟩

/-- Default thresholds with a one-minute window. -/
def cfgWin1 : Config := ⟨true, true, 5, 1, 15, false, false, false, false⟩

/-- A transport that always delivers. -/
def okDeliver : Channel → Except String Unit := fun _ => Except.ok ()

/-- A transport where discord always fails and every other channel succeeds. -/
def mixedDeliver : Channel → Except String Unit := fun ch =>
  match ch with
  | Channel.discord => Except.error "timeout"
  | _ => Except.ok ()

/-- A line that matches both an error rule (`network_error`, via
`ERROR.*connection`) and a warning rule (`performance_warning`, via
`WARN.*slow`). -/
def lineDual : String := "ERROR connection refused WARN slow response"

/-- A line that matches two error rules (`stream_error` and
`database_error`). -/
def lineDualError : String := "ERROR database stream failure"

/-- Five distinct lines matching `database_error` inside one 5-minute window. -/
def demoLines5 : List (String × Nat) :=
  [("ERROR database fail 1", 0), ("ERROR database fail 2", 10),
   ("ERROR database fail 3", 20), ("ERROR database fail 4", 30),
   ("ERROR database fail 5", 40)]

/-- The same five lines followed by a sixth, still inside the window and the
cooldown period. -/
def demoLines6 : List (String × Nat) := demoLines5 ++ [("ERROR database fail 6", 50)]

/-- A concrete classified error entry. -/
def entryDemo : Entry :=
  ⟨"ERROR database boom", 0, "error", "database_error", "ERROR database boom"⟩

/-- A state whose dedup set already contains one line. -/
def stSeen : MonState := ⟨[], [], ["ERROR database boom"]⟩

/-- A state whose dedup set is at full capacity. -/
def stFull : MonState := ⟨[], [], List.replicate 10000 "x"⟩

/-! ### Helper lemmas -/

theorem lookup_setAssoc_self {α : Type} (l : List (String × α)) (k : String) (v : α) :
    (setAssoc l k v).lookup k = some v := by
  induction l with
  | nil => simp [setAssoc, List.lookup]
  | cons hd tl ih =>
      obtain ⟨k', v'⟩ := hd
      by_cases h : k' = k
      · subst h
        simp [setAssoc, List.lookup]
      · have hb : (k == k') = false := beq_eq_false_iff_ne.mpr (Ne.symm h)
        simp [setAssoc, h, List.lookup, hb, ih]

theorem lookup_setAssoc_ne {α : Type} (l : List (String × α)) (k k' : String) (v : α)
    (h : k' ≠ k) : (setAssoc l k v).lookup k' = l.lookup k' := by
  induction l with
  | nil =>
      have hb : (k' == k) = false := beq_eq_false_iff_ne.mpr h
      simp [setAssoc, List.lookup, hb]
  | cons hd tl ih =>
      obtain ⟨k₀, v₀⟩ := hd
      by_cases h₀ : k₀ = k
      · subst h₀
        have hb : (k' == k₀) = false := beq_eq_false_iff_ne.mpr h
        simp [setAssoc, List.lookup, hb]
      · simp only [setAssoc, if_neg h₀, List.lookup]
        cases hbk : (k' == k₀) <;> simp [ih]

theorem parse_log_line_processed (cfg : Config) (st : MonState) (line : String)
    (now : Nat) :
    (parse_log_line cfg st line now).1.processed_lines =
      if line ∈ st.processed_lines then st.processed_lines
      else dedupUpdate st.processed_lines line := by
  by_cases hm : line ∈ st.processed_lines
  · simp [parse_log_line, hm]
  · simp only [parse_log_line, if_neg hm]
    cases classify cfg line <;> rfl

theorem parse_log_line_error_counts (cfg : Config) (st : MonState) (line : String)
    (now : Nat) :
    (parse_log_line cfg st line now).1.error_counts = st.error_counts := by
  by_cases hm : line ∈ st.processed_lines
  · simp [parse_log_line, hm]
  · simp only [parse_log_line, if_neg hm]
    cases classify cfg line <;> rfl

theorem parse_log_line_last_alerts (cfg : Config) (st : MonState) (line : String)
    (now : Nat) :
    (parse_log_line cfg st line now).1.last_alerts = st.last_alerts := by
  by_cases hm : line ∈ st.processed_lines
  · simp [parse_log_line, hm]
  · simp only [parse_log_line, if_neg hm]
    cases classify cfg line <;> rfl

theorem process_log_entry_processed (cfg : Config) (st : MonState) (e : Entry)
    (now : Nat) (outcome : Channel → Except String Unit) :
    (process_log_entry cfg st e now outcome).1.processed_lines =
      st.processed_lines := by
  simp only [process_log_entry]
  split_ifs <;> rfl

theorem tailStep_processed (cfg : Config) (st : MonState) (line : String)
    (now : Nat) (outcome : Channel → Except String Unit) :
    (tailStep cfg st line now outcome).1.processed_lines =
      (parse_log_line cfg st line now).1.processed_lines := by
  unfold tailStep
  rcases h : parse_log_line cfg st line now with ⟨st1, oe⟩
  cases oe with
  | none => simp
  | some e => simp [process_log_entry_processed]

theorem tailStep_seen (cfg : Config) (st : MonState) (line : String) (now : Nat)
    (outcome : Channel → Except String Unit)
    (h : line ∈ st.processed_lines) :
    tailStep cfg st line now outcome = (st, none) := by
  unfold tailStep
  simp [parse_log_line, h]

theorem enabledChannels_nodup (cfg : Config) : (enabledChannels cfg).Nodup := by
  unfold enabledChannels
  by_cases he : cfg.email_enabled <;> by_cases hd : cfg.discord_enabled <;>
    by_cases hs : cfg.slack_enabled <;> by_cases hw : cfg.webhook_enabled <;>
    simp [he, hd, hs, hw]

/-! ### C1: sliding-window eviction in check_error_threshold -/

/-- C1 (amended): on every call `check_error_threshold` first evicts exactly
those stored timestamps `ts` with `at − ts ≥ window` (strictly: it keeps `ts`
iff `at − ts < window`), then appends `at`, and its verdict is whether the
resulting count reached the threshold; consequently, whenever the stored
timestamps are not in the future, all retained timestamps lie within
`[at − window, at]`, and events older than the window never count toward a
threshold check: feeding 4 errors, waiting longer than the 5-minute window,
then 4 more never crosses a threshold of 5. -/
theorem check_error_threshold_window :
    (∀ (cfg : Config) (counts : List (String × List Nat)) (p : String) (now : Nat),
      (((check_error_threshold cfg counts p now).1.lookup p).getD [] =
          ((counts.lookup p).getD []).filter
            (fun ts : Nat =>
              decide ((now : Int) - (ts : Int) < (cfg.time_window * 60 : Nat)))
            ++ [now])
        ∧ (check_error_threshold cfg counts p now).2 =
            decide (cfg.error_threshold ≤
              (((check_error_threshold cfg counts p now).1.lookup p).getD []).length))
    ∧ (∀ (cfg : Config) (counts : List (String × List Nat)) (p : String) (now : Nat),
        (∀ u ∈ (counts.lookup p).getD [], u ≤ now) →
        ∀ ts ∈ ((check_error_threshold cfg counts p now).1.lookup p).getD [],
          now - cfg.time_window * 60 ≤ ts ∧ ts ≤ now)
    ∧ runThreshold cfgDemo "database_error" [] [0, 60, 120, 180, 541, 601, 661, 721]
        = [false, false, false, false, false, false, false, false] := by
  refine ⟨?_, ?_, by decide⟩
  · intro cfg counts p now
    constructor
    · simp only [check_error_threshold, lookup_setAssoc_self, Option.getD_some]
      congr 1
      apply List.filter_congr
      intro x _
      exact decide_eq_decide.mpr (by omega)
    · simp only [check_error_threshold, lookup_setAssoc_self, Option.getD_some]
  · intro cfg counts p now hmono ts hts
    simp only [check_error_threshold, lookup_setAssoc_self, Option.getD_some] at hts
    rcases List.mem_append.mp hts with h | h
    · rcases List.mem_filter.mp h with ⟨hmem, hkeep⟩
      have h1 := hmono ts hmem
      have h2 : now < ts + cfg.time_window * 60 := of_decide_eq_true hkeep
      omega
    · have hts' : ts = now := by simpa using h
      omega

/-- C1 witness: a concrete instantiation of the window invariant, with the
stored timestamps `[0, 10]` and `at = 20` under the default configuration. -/
theorem check_error_threshold_window_witness :
    (∀ u ∈ (([("database_error", [0, 10])] :
        List (String × List Nat)).lookup "database_error").getD [], u ≤ 20)
    ∧ ∀ ts ∈ ((check_error_threshold cfgDemo [("database_error", [0, 10])]
        "database_error" 20).1.lookup "database_error").getD [],
        20 - cfgDemo.time_window * 60 ≤ ts ∧ ts ≤ 20 :=
  ⟨by decide,
   check_error_threshold_window.2.1 cfgDemo [("database_error", [0, 10])]
    "database_error" 20 (by decide)⟩

/-- C1 counterexample: with a 1-minute window and a stored timestamp exactly
one window old (`ts = 0` at `at = 60`), `at − ts > window` is false yet the
code evicts the timestamp, so the eviction predicate claimed by the spec
("evict exactly those `ts` with `at − ts > window`") disagrees with the code:
the spec-side list keeps `0`, the code's stored list does not. -/
theorem check_error_threshold_boundary_cex :
    (((check_error_threshold cfgWin1 [("database_error", [0])]
        "database_error" 60).1.lookup "database_error").getD [] = [60])
    ∧ specStrictEvictThenAppend cfgWin1.time_window 60 [0] = [0, 60]
    ∧ ¬(((check_error_threshold cfgWin1 [("database_error", [0])]
        "database_error" 60).1.lookup "database_error").getD [] =
          specStrictEvictThenAppend cfgWin1.time_window 60 [0]) :=
  ⟨by decide, by decide, by decide⟩

/-! ### C3: the cooldown gate -/

/-- C3: `should_send_alert` always permits the first occurrence of a key, and
permits a later occurrence exactly when `now − lastSent` is at least the
cooldown (stated in seconds, `alert_cooldown * 60`, which over the reals is
the code's `(now - last).total_seconds() / 60 >= alert_cooldown`); in
particular after a send recorded at time `sent`, the gate re-opens for that
key exactly when `now − sent ≥ cooldown`. -/
theorem should_send_alert_cooldown :
    (∀ (cfg : Config) (la : List (String × Nat)) (key : String) (now : Nat),
      la.lookup key = none → should_send_alert cfg la key now = true)
    ∧ (∀ (cfg : Config) (la : List (String × Nat)) (key : String) (now last : Nat),
        la.lookup key = some last →
        (should_send_alert cfg la key now = true ↔
          (cfg.alert_cooldown : Int) * 60 ≤ (now : Int) - (last : Int)))
    ∧ (∀ (cfg : Config) (la : List (String × Nat)) (key : String) (sent now : Nat),
        should_send_alert cfg (setAssoc la key sent) key now = true ↔
          (cfg.alert_cooldown : Int) * 60 ≤ (now : Int) - (sent : Int)) := by
  refine ⟨?_, ?_, ?_⟩
  · intro cfg la key now h
    simp [should_send_alert, h]
  · intro cfg la key now last h
    simp [should_send_alert, h]
  · intro cfg la key sent now
    simp [should_send_alert, lookup_setAssoc_self]

/-- C3 witness: a fresh key is permitted, and a key recorded at time `0` is
queried again at `900` seconds (= the 15-minute default cooldown). -/
theorem should_send_alert_cooldown_witness :
    should_send_alert cfgDemo [] "error:X" 0 = true
    ∧ (should_send_alert cfgDemo [("k", 0)] "k" 900 = true ↔
        (cfgDemo.alert_cooldown : Int) * 60 ≤ ((900 : Nat) : Int) - ((0 : Nat) : Int)) :=
  ⟨should_send_alert_cooldown.1 cfgDemo [] "error:X" 0 (by decide),
   should_send_alert_cooldown.2.1 cfgDemo [("k", 0)] "k" 900 0 (by decide)⟩

/-! ### C4: when the send time is recorded -/

/-- C4 (amended): once the cooldown gate passes, `send_alert` records the send
time for the alert key immediately — before, and regardless of, any channel
attempt (even when no channel is enabled) — and the recorded map does not
depend on the per-channel delivery outcomes, so a channel failure never
re-opens the cooldown window for that key. -/
theorem send_alert_records_time :
    ∀ (cfg : Config) (la : List (String × Nat)) (now : Nat)
      (title message sev : String) (details : List (String × String))
      (outs outs' : Channel → Except String Unit),
      (should_send_alert cfg la (sev ++ ":" ++ title) now = true →
        (send_alert cfg la now title message sev details outs).last_alerts =
          setAssoc la (sev ++ ":" ++ title) now)
      ∧ (send_alert cfg la now title message sev details outs).last_alerts =
          (send_alert cfg la now title message sev details outs').last_alerts := by
  intro cfg la now title message sev details outs outs'
  constructor
  · intro h
    simp [send_alert, h]
  · by_cases h : should_send_alert cfg la (sev ++ ":" ++ title) now <;>
      simp [send_alert, h]

/-- C4 witness: with the default configuration and a fresh key the recorded
map is exactly the singleton update. -/
theorem send_alert_records_time_witness :
    (send_alert cfgDemo [] 7 "T" "m" "error" [] okDeliver).last_alerts =
      setAssoc [] ("error" ++ ":" ++ "T") 7 :=
  (send_alert_records_time cfgDemo [] 7 "T" "m" "error" [] okDeliver okDeliver).1
    (by decide)

/-- C4 counterexample: with every channel disabled the gate passes and no
channel send is attempted, yet the send time is recorded — refuting "records
the send time only after a channel send was actually attempted". -/
theorem send_alert_records_without_attempt_cex :
    (send_alert cfgNoChannels [] 5 "T" "m" "error" [] okDeliver).attempts = []
    ∧ (send_alert cfgNoChannels [] 5 "T" "m" "error" [] okDeliver).last_alerts =
        [("error:T", 5)] :=
  ⟨by decide, by decide⟩

/-! ### C5: declaration order and first-match-wins -/

/-- C5: classification evaluates rules in declaration order with error rules
before warning rules, and the first matching rule wins: `lineDual` matches
both an error rule and a warning rule but is attributed to the error rule
only, and consulting the warning block first attributes it to the warning
rule instead; likewise `lineDualError` matches two error rules and is
attributed to the earliest-declared one, and reversing the table's
declaration order attributes it to the other. -/
theorem classify_first_match_wins :
    firstMatch ERROR_PATTERNS lineDual = some "network_error"
    ∧ firstMatch WARNING_PATTERNS lineDual = some "performance_warning"
    ∧ classify cfgDemo lineDual = some ("error", "network_error")
    ∧ classifyRulesSwapped ERROR_PATTERNS WARNING_PATTERNS true true lineDual =
        some ("warning", "performance_warning")
    ∧ firstMatch ERROR_PATTERNS lineDualError = some "stream_error"
    ∧ firstMatch ERROR_PATTERNS.reverse lineDualError = some "database_error" := by
  refine ⟨by decide, by decide, by decide, by decide, by decide, by decide⟩

/-! ### C6: no-match lines are effect-free beyond the line-seen check -/

/-- C6: a line matching no enabled rule yields no entry and leaves the error
windows and the cooldown map untouched — the only state change is the dedup
line-seen bookkeeping (none at all when the line was already seen) — and the
classification outcome of a fresh line is the pure function `classify` of the
line and the rule configuration, independent of all mutable state. -/
theorem parse_log_line_no_match_frame :
    ∀ (cfg : Config) (st : MonState) (line : String) (now : Nat),
      (classify cfg line = none →
        (parse_log_line cfg st line now).2 = none
        ∧ (parse_log_line cfg st line now).1.error_counts = st.error_counts
        ∧ (parse_log_line cfg st line now).1.last_alerts = st.last_alerts
        ∧ (line ∉ st.processed_lines →
            (parse_log_line cfg st line now).1.processed_lines =
              dedupUpdate st.processed_lines line)
        ∧ (line ∈ st.processed_lines → (parse_log_line cfg st line now).1 = st))
      ∧ (line ∉ st.processed_lines →
          ((parse_log_line cfg st line now).2).map (fun e => (e.type, e.pattern)) =
            classify cfg line) := by
  intro cfg st line now
  constructor
  · intro hc
    refine ⟨?_, parse_log_line_error_counts cfg st line now,
      parse_log_line_last_alerts cfg st line now, ?_, ?_⟩
    · by_cases hm : line ∈ st.processed_lines <;> simp [parse_log_line, hm, hc]
    · intro hm
      rw [parse_log_line_processed, if_neg hm]
    · intro hm
      simp [parse_log_line, hm]
  · intro hm
    simp only [parse_log_line, if_neg hm]
    cases hcl : classify cfg line with
    | none => simp
    | some sp => simp

/-- C6 witness: a line matching no rule, fed to the empty state. -/
theorem parse_log_line_no_match_frame_witness :
    (parse_log_line cfgDemo initState "hello world" 3).2 = none
    ∧ (parse_log_line cfgDemo initState "hello world" 3).1.error_counts =
        initState.error_counts
    ∧ (parse_log_line cfgDemo initState "hello world" 3).1.last_alerts =
        initState.last_alerts
    ∧ ("hello world" ∉ initState.processed_lines →
        (parse_log_line cfgDemo initState "hello world" 3).1.processed_lines =
          dedupUpdate initState.processed_lines "hello world")
    ∧ ("hello world" ∈ initState.processed_lines →
        (parse_log_line cfgDemo initState "hello world" 3).1 = initState) :=
  (parse_log_line_no_match_frame cfgDemo initState "hello world" 3).1 (by decide)

/-! ### C7: per-channel failure isolation in dispatch -/

/-- C7: when the cooldown gate passes, `send_alert` attempts every enabled
channel exactly once, the attempted channels are the enabled ones in fixed
order, and they do not depend on delivery outcomes — a channel that throws is
caught locally and neither prevents the remaining channels nor escapes
`send_alert` (which returns normally for every outcome assignment). -/
theorem send_alert_attempts_all_enabled :
    ∀ (cfg : Config) (la : List (String × Nat)) (now : Nat)
      (title message sev : String) (details : List (String × String))
      (outs : Channel → Except String Unit),
      should_send_alert cfg la (sev ++ ":" ++ title) now = true →
      ((send_alert cfg la now title message sev details outs).attempts.map Prod.fst =
          enabledChannels cfg
        ∧ (enabledChannels cfg).Nodup
        ∧ ∀ outs' : Channel → Except String Unit,
            (send_alert cfg la now title message sev details outs').attempts.map
              Prod.fst = enabledChannels cfg) := by
  intro cfg la now title message sev details outs h
  have key : ∀ o : Channel → Except String Unit,
      (send_alert cfg la now title message sev details o).attempts.map Prod.fst =
        enabledChannels cfg := by
    intro o
    simp only [send_alert, if_pos h, enabledChannels, sendChannel, List.map_append,
      apply_ite (List.map (Prod.fst (α := Channel) (β := Bool)))]
    simp
  exact ⟨key outs, enabledChannels_nodup cfg, key⟩

/-- C7 witness: discord always fails and slack always succeeds; both are
attempted, in order. -/
theorem send_alert_attempts_all_enabled_witness :
    (send_alert cfgTwoChannels [] 0 "T" "m" "error" [] mixedDeliver).attempts.map
        Prod.fst = enabledChannels cfgTwoChannels
    ∧ (send_alert cfgTwoChannels [] 0 "T" "m" "error" [] mixedDeliver).attempts =
        [(Channel.discord, false), (Channel.slack, true)] :=
  ⟨(send_alert_attempts_all_enabled cfgTwoChannels [] 0 "T" "m" "error" []
      mixedDeliver (by decide)).1,
   by decide⟩

/-! ### C8: the dedup set is capacity-bounded -/

/-- C8: adding a line's hash that pushes the dedup set past 10000 entries
clears the whole set in one step, a fresh line below the bound is simply
appended, and consequently every `parse_log_line` call preserves the bound of
at most 10000 stored hashes. -/
theorem parse_log_line_dedup_bound :
    ∀ (cfg : Config) (st : MonState) (line : String) (now : Nat),
      (st.processed_lines.length ≤ 10000 →
        (parse_log_line cfg st line now).1.processed_lines.length ≤ 10000)
      ∧ (line ∉ st.processed_lines → 10000 < st.processed_lines.length + 1 →
          (parse_log_line cfg st line now).1.processed_lines = [])
      ∧ (line ∉ st.processed_lines → st.processed_lines.length + 1 ≤ 10000 →
          (parse_log_line cfg st line now).1.processed_lines =
            st.processed_lines ++ [line]) := by
  intro cfg st line now
  refine ⟨?_, ?_, ?_⟩
  · intro hlen
    rw [parse_log_line_processed]
    by_cases hm : line ∈ st.processed_lines
    · simpa [hm] using hlen
    · rw [if_neg hm]
      simp only [dedupUpdate]
      split
      · simp
      · next hc =>
          simp only [List.length_append, List.length_singleton] at hc ⊢
          omega
  · intro hm hover
    rw [parse_log_line_processed, if_neg hm]
    have hc : 10000 < (st.processed_lines ++ [line]).length := by
      simp only [List.length_append, List.length_singleton]
      omega
    simp only [dedupUpdate, if_pos hc]
  · intro hm hfit
    rw [parse_log_line_processed, if_neg hm]
    have hc : ¬10000 < (st.processed_lines ++ [line]).length := by
      simp only [List.length_append, List.length_singleton]
      omega
    simp only [dedupUpdate, if_neg hc]

/-- C8 witness: a full 10000-entry set is cleared wholesale by the 10001st
distinct line, and a fresh line below the bound is appended. -/
theorem parse_log_line_dedup_bound_witness :
    (parse_log_line cfgDemo stFull "fresh line" 0).1.processed_lines = []
    ∧ (parse_log_line cfgDemo initState "fresh line" 0).1.processed_lines =
        initState.processed_lines ++ ["fresh line"] :=
  ⟨(parse_log_line_dedup_bound cfgDemo stFull "fresh line" 0).2.1
      (fun hmem => absurd (List.eq_of_mem_replicate hmem) (by decide))
      (by
        have hlen : stFull.processed_lines.length = 10000 :=
          List.length_replicate 10000 "x"
        omega),
   (parse_log_line_dedup_bound cfgDemo initState "fresh line" 0).2.2
      (by decide) (by decide)⟩

/-! ### C2: routing of classified entries to alerting -/

/-- C2: an error-severity entry proceeds to alerting exactly when the windowed
count after recording reaches the threshold and the cooldown gate passes; a
warning-severity entry proceeds exactly when the cooldown gate passes (the
gate is its only rate limit); concretely, with threshold 5 and a 5-minute
window, five `database_error` lines within the window trigger exactly one
alert, and a sixth line within the window and cooldown adds no second one. -/
theorem process_log_entry_routing :
    (∀ (cfg : Config) (st : MonState) (e : Entry) (now : Nat)
        (outs : Channel → Except String Unit),
      e.type = "error" →
      ((process_log_entry cfg st e now outs).2.isSome = true ↔
        ((check_error_threshold cfg st.error_counts e.pattern now).2 = true
          ∧ should_send_alert cfg st.last_alerts
              ("error:" ++ errorAlertTitle e.pattern) now = true)))
    ∧ (∀ (cfg : Config) (st : MonState) (e : Entry) (now : Nat)
        (outs : Channel → Except String Unit),
      e.type = "warning" →
      ((process_log_entry cfg st e now outs).2.isSome = true ↔
        should_send_alert cfg st.last_alerts
          ("warning:" ++ warningAlertTitle e.pattern) now = true))
    ∧ (runLines cfgDemo okDeliver initState demoLines6).2.map Alert.title =
        ["Multiple Database Error Detected"]
    ∧ (runLines cfgDemo okDeliver initState demoLines5).2.map Alert.title =
        ["Multiple Database Error Detected"] := by
  refine ⟨?_, ?_, by decide, by decide⟩
  · intro cfg st e now outs h
    rcases hres : check_error_threshold cfg st.error_counts e.pattern now
      with ⟨c1, crossed⟩
    by_cases hg : should_send_alert cfg st.last_alerts
        ("error:" ++ errorAlertTitle e.pattern) now = true
    all_goals cases crossed
    all_goals simp [process_log_entry, h, hres, send_alert, hg]
  · intro cfg st e now outs h
    by_cases hg : should_send_alert cfg st.last_alerts
        ("warning:" ++ warningAlertTitle e.pattern) now = true
    all_goals simp [process_log_entry, h, send_alert, hg]

/-- C2 witness: a concrete error entry under the default configuration. -/
theorem process_log_entry_routing_witness :
    (process_log_entry cfgDemo initState entryDemo 0 okDeliver).2.isSome = true ↔
      ((check_error_threshold cfgDemo initState.error_counts entryDemo.pattern 0).2 =
          true
        ∧ should_send_alert cfgDemo initState.last_alerts
            ("error:" ++ errorAlertTitle entryDemo.pattern) 0 = true) :=
  process_log_entry_routing.1 cfgDemo initState entryDemo 0 okDeliver (by decide)

/-! ### C9: a repeated identical line is dropped by the dedup check -/

/-- C9: an already-seen line is dropped before any pattern matching — the call
returns `none` and the state is unchanged, so a whole tail-loop step on it
neither counts toward a threshold nor offers an alert — and once a fresh line
has been processed without a capacity-triggered clear, every later call on
the same line text in that dedup epoch is dropped the same way. -/
theorem parse_log_line_dedup_once :
    ∀ (cfg : Config) (st : MonState) (line : String) (now : Nat)
      (outs : Channel → Except String Unit),
      (line ∈ st.processed_lines →
        parse_log_line cfg st line now = (st, none)
        ∧ tailStep cfg st line now outs = (st, none))
      ∧ (line ∉ st.processed_lines → st.processed_lines.length + 1 ≤ 10000 →
          ∀ (now' : Nat) (outs' : Channel → Except String Unit),
            tailStep cfg (tailStep cfg st line now outs).1 line now' outs' =
              ((tailStep cfg st line now outs).1, none)) := by
  intro cfg st line now outs
  constructor
  · intro hm
    exact ⟨by simp [parse_log_line, hm], tailStep_seen cfg st line now outs hm⟩
  · intro hm hfit now' outs'
    apply tailStep_seen
    rw [tailStep_processed, parse_log_line_processed, if_neg hm]
    have hc : ¬10000 < (st.processed_lines ++ [line]).length := by
      simp only [List.length_append, List.length_singleton]
      omega
    simp only [dedupUpdate, if_neg hc]
    simp

/-- C9 witness: the line already stored in `stSeen` is dropped with the state
untouched. -/
theorem parse_log_line_dedup_once_witness :
    parse_log_line cfgDemo stSeen "ERROR database boom" 3 = (stSeen, none)
    ∧ tailStep cfgDemo stSeen "ERROR database boom" 3 okDeliver = (stSeen, none) :=
  (parse_log_line_dedup_once cfgDemo stSeen "ERROR database boom" 3 okDeliver).1
    (by decide)

/-! ### C10: distinct patterns and severities have independent cooldowns -/

/-- C10: over the fixed pattern tables the nine alert keys
(`f"{severity}:{title}"` with the titles built by `process_log_entry`) are
pairwise distinct, and recording a send under one key never changes the
cooldown verdict of a different key — so the cooldown of one pattern's alert
never suppresses an alert of a different pattern or severity. -/
theorem alert_keys_distinct_independent :
    alertKeys.Nodup
    ∧ (∀ (cfg : Config) (la : List (String × Nat)) (now t : Nat) (k1 k2 : String),
        k1 ≠ k2 →
        should_send_alert cfg (setAssoc la k1 t) k2 now =
          should_send_alert cfg la k2 now) := by
  constructor
  · decide
  · intro cfg la now t k1 k2 h
    unfold should_send_alert
    rw [lookup_setAssoc_ne la k1 k2 t (Ne.symm h)]

/-- C10 witness: marking the `database_error` burst key sent leaves the
`stream_error` burst key's verdict unchanged. -/
theorem alert_keys_distinct_independent_witness :
    should_send_alert cfgDemo
        (setAssoc [] ("error" ++ ":" ++ errorAlertTitle "database_error") 0)
        ("error" ++ ":" ++ errorAlertTitle "stream_error") 100 =
      should_send_alert cfgDemo []
        ("error" ++ ":" ++ errorAlertTitle "stream_error") 100 :=
  alert_keys_distinct_independent.2 cfgDemo [] 100 0
    ("error" ++ ":" ++ errorAlertTitle "database_error")
    ("error" ++ ":" ++ errorAlertTitle "stream_error") (by decide)

end Sentarr
